import Mathlib

/-!
Verification development for the catalog service
(`file_system_docker/catalog_service/server.py`).

The service is embedded shallowly:

* Mongo documents become the structure `Doc`.  The store is schemaless, so a
  single document shape serves both collections; fields that may be absent
  from an older document (`is_public`, `owner_id`, `allowed_readers`,
  `allowed_writers`) are `Option`s, with `none` meaning "key absent", and the
  Python `doc.get(key, default)` reads become `Option.getD`.
* The two collections `dirs_col` and `files_col` become lists of documents in
  a `Store`; `find_one`, `update_one`, `delete_one`, `delete_many` and
  `count_documents` become `List.find?`, an update-first-match helper,
  `List.eraseP`, `List.filter` and `List.countP`.
* The external auth collaborator (`GetCurrentUser`) becomes an oracle
  `String → Option Nat`: `some uid` models a successful resolution, `none`
  models the RPC raising.  The external file service becomes an oracle
  `String → Bool` whose result is discarded, as the source discards it.
* `context.abort` raises, so every handler returns `Except RpcError _`.
* Python string truthiness (`if token:`) and `split` are translated over
  `List Char` so that every definition evaluates by kernel reduction.
-/

/-- Equality on `Except` is decidable componentwise. -/
instance instDecidableEqExcept {ε α : Type} [DecidableEq ε] [DecidableEq α] :
    DecidableEq (Except ε α) := fun a b =>
  match a, b with
  | .error e, .error e' =>
    if h : e = e' then .isTrue (by rw [h]) else .isFalse (by simp [h])
  | .ok v, .ok v' =>
    if h : v = v' then .isTrue (by rw [h]) else .isFalse (by simp [h])
  | .error _, .ok _ => .isFalse (by simp)
  | .ok _, .error _ => .isFalse (by simp)

namespace Catalog

/-- gRPC status codes used by the service. -/
inductive StatusCode where
  | UNAUTHENTICATED
  | PERMISSION_DENIED
  | NOT_FOUND
  | INTERNAL
deriving DecidableEq, Repr

/-- A `context.abort(code, details)` call. -/
structure RpcError where
  code : StatusCode
  details : String
deriving DecidableEq, Repr

/-- A Mongo document.  `docId` is the `_id`; directory documents use
`parent_id` (`none` is the stored root sentinel `null`), file documents use
`parent_directory_id` and `external_file_id` (always plain strings).  The
fields that a legacy document may lack are `Option`s. -/
structure Doc where
  docId : String
  name : String
  parent_id : Option String := none
  parent_directory_id : String := ""
  external_file_id : String := ""
  owner_id : Option Nat := none
  is_public : Option Bool := none
  allowed_readers : Option (List Nat) := none
  allowed_writers : Option (List Nat) := none
deriving DecidableEq, Repr

/-- The document store: the `directories` and `files` collections. -/
structure Store where
  dirs_col : List Doc
  files_col : List Doc
deriving DecidableEq, Repr

/-! ### Python string helpers

`token.split(sep)` keeps empty groups and returns `[""]` on the empty
string; truthiness of a string is non-emptiness. -/

/-- Python split over characters, `str.split(sep)` with an explicit
separator: every occurrence separates, empty groups are kept. -/
def split_chars (sep : Char) : List Char → List (List Char)
  | [] => [[]]
  | c :: cs =>
    match split_chars sep cs with
    | [] => if c = sep then [[], []] else [[c]]
    | g :: gs => if c = sep then [] :: g :: gs else (c :: g) :: gs

/-- Python `s.split(sep)`. -/
def py_split (s : String) (sep : Char) : List String :=
  (split_chars sep s.toList).map String.mk

/-- Python string truthiness: `bool(s)` is `s ≠ ""`. -/
def py_truthy (s : String) : Bool :=
  !(s == "")

/-- Whether `needle` occurs as a contiguous substring of the character
list, Python `needle in hay`. -/
def has_substr_chars (needle : List Char) : List Char → Bool
  | [] => needle.isEmpty
  | c :: cs => needle.isPrefixOf (c :: cs) || has_substr_chars needle cs

/-- Python `needle in hay` on strings. -/
def has_substr (needle hay : String) : Bool :=
  has_substr_chars needle.toList hay.toList

/-- Python `s.startswith(p)`. -/
def py_startswith (s p : String) : Bool :=
  p.toList.isPrefixOf s.toList

/-- Bearer stripping, `token.split(' ')[1]` after a `startswith('Bearer ')` guard: strips the
`Bearer ` scheme and keeps the first word after it. -/
def strip_bearer (token : String) : String :=
  if py_startswith token "Bearer " then (py_split token ' ').getD 1 "" else token

/-! ### Permission Evaluator (`_can_read` / `_can_write`) -/

/-- Embeds `CatalogService._can_read`: public objects are visible to everyone;
otherwise anonymous callers are refused and the owner, the allowed readers
and the allowed writers are admitted.  Absent ACL keys read as `False` and
empty lists via `doc.get`. -/
def can_read (doc : Doc) (user_id : Option Nat) : Bool :=
  if doc.is_public.getD false then true
  else
    match user_id with
    | none => false
    | some uid =>
      if doc.owner_id = some uid then true
      else if uid ∈ doc.allowed_readers.getD [] then true
      else if uid ∈ doc.allowed_writers.getD [] then true
      else false

/-- Embeds `CatalogService._can_write`: anonymous callers are refused; the owner
and the allowed writers may write. -/
def can_write (doc : Doc) (user_id : Option Nat) : Bool :=
  match user_id with
  | none => false
  | some uid =>
    if doc.owner_id = some uid then true
    else if uid ∈ doc.allowed_writers.getD [] then true
    else false

/-! ### Identity Resolver (`_get_user_identity`) -/

/-- Result of `CatalogService._get_user_identity`, instrumented with the
list of session ids actually sent to the auth collaborator, so that the
absence of an outbound call is observable in the model. -/
structure IdentityResult where
  user_id : Option Nat
  is_authenticated : Bool
  stub_calls : List String
deriving DecidableEq, Repr

/-- Embeds `CatalogService._get_user_identity`.  The metadata value under
`authorization` is `authorization` (`none` = key absent); the auth
collaborator is the oracle `auth_stub`, whose `none` models
`GetCurrentUser` raising.  A falsy token (absent or empty) short-circuits
to `(None, False)` with no outbound call; otherwise the `Bearer ` scheme is
stripped and the collaborator is consulted once, any failure being caught
and folded into `(None, False)`. -/
def get_user_identity (auth_stub : String → Option Nat)
    (authorization : Option String) : IdentityResult :=
  match authorization with
  | none => ⟨none, false, []⟩
  | some token =>
    if !py_truthy token then ⟨none, false, []⟩
    else
      let token := strip_bearer token
      match auth_stub token with
      | some uid => ⟨some uid, true, [token]⟩
      | none => ⟨none, false, [token]⟩

/-! ### Request Gate (`AuthInterceptor.intercept_service`) -/

/-- Outcome of the interceptor: either the continuation is invoked (the
handler runs) or the call is aborted before any handler runs. -/
inductive GateResult where
  | Passed
  | Rejected (code : StatusCode) (details : String)
deriving DecidableEq, Repr

/-- Read-intent classification of the interceptor:
`"Get" in method_name.split('/')[-1]`. -/
def is_read_op (method_name : String) : Bool :=
  has_substr "Get" ((py_split method_name '/').getLastD "")

/-- Embeds `AuthInterceptor.intercept_service`.  The token is taken from the
`authorization` metadata, `Bearer `-stripped when non-empty, and sent to
the auth collaborator only when still truthy; an authenticated caller
always passes, an anonymous caller passes only read-intent operations and
is otherwise aborted with `UNAUTHENTICATED`. -/
def intercept_service (auth_stub : String → Option Nat)
    (method_name : String) (authorization : Option String) : GateResult :=
  let read_op := is_read_op method_name
  let token : Option String :=
    match authorization with
    | none => none
    | some t => if py_truthy t && py_startswith t "Bearer "
        then some ((py_split t ' ').getD 1 "") else some t
  let is_authenticated : Bool :=
    match token with
    | none => false
    | some t => if !py_truthy t then false else (auth_stub t).isSome
  if is_authenticated then .Passed
  else if read_op then .Passed
  else .Rejected .UNAUTHENTICATED "Auth required"

/-! ### Requests and responses -/

/-- Proto message `catalog_pb2.UpdateDirectoryRequest` (proto3, every field present with
its zero value when unset). -/
structure UpdateDirectoryRequest where
  id : String
  name : String := ""
  parent_id : String := ""
  is_public : Bool := false
  allowed_readers : List Nat := []
  allowed_writers : List Nat := []
deriving DecidableEq, Repr

/-- Proto message `catalog_pb2.UpdateFileRequest`: like the directory request but with no
parent field. -/
structure UpdateFileRequest where
  id : String
  name : String := ""
  is_public : Bool := false
  allowed_readers : List Nat := []
  allowed_writers : List Nat := []
deriving DecidableEq, Repr

/-- Proto messages `catalog_pb2.DeleteDirectoryRequest` / `DeleteFileRequest`. -/
structure DeleteRequest where
  id : String
deriving DecidableEq, Repr

/-- Proto message `catalog_pb2.GetDirectoryRequest`. -/
structure GetDirectoryRequest where
  directory_id : String := ""
deriving DecidableEq, Repr

/-- Proto message `catalog_pb2.DirectoryResponse`, as the handlers build it from a stored
document: `parent_id` is `str(parent_id or "")` and the optional keys read
through `doc.get` with defaults. -/
structure DirectoryResponse where
  id : String
  name : String
  parent_id : String
  is_public : Bool
  owner_id : Option Nat
  allowed_readers : List Nat
  allowed_writers : List Nat
deriving DecidableEq, Repr

/-- Proto message `catalog_pb2.FileResponse`, as the handlers build it. -/
structure FileResponse where
  id : String
  name : String
  external_file_id : String
  is_public : Bool
  owner_id : Option Nat
  allowed_readers : List Nat
  allowed_writers : List Nat
deriving DecidableEq, Repr

/-- Proto message `catalog_pb2.DeleteResponse`. -/
structure DeleteResponse where
  success : Bool
  message : String
deriving DecidableEq, Repr

/-- Proto message `catalog_pb2.DirectoryContentResponse`. -/
structure DirectoryContentResponse where
  directories : List DirectoryResponse
  files : List FileResponse
deriving DecidableEq, Repr

/-- The `DirectoryResponse` built from a stored document. -/
def directory_response (d : Doc) : DirectoryResponse :=
  { id := d.docId
    name := d.name
    parent_id := d.parent_id.getD ""
    is_public := d.is_public.getD false
    owner_id := d.owner_id
    allowed_readers := d.allowed_readers.getD []
    allowed_writers := d.allowed_writers.getD [] }

/-- The `FileResponse` built from a stored document. -/
def file_response (d : Doc) : FileResponse :=
  { id := d.docId
    name := d.name
    external_file_id := d.external_file_id
    is_public := d.is_public.getD false
    owner_id := d.owner_id
    allowed_readers := d.allowed_readers.getD []
    allowed_writers := d.allowed_writers.getD [] }

/-! ### Store primitives -/

/-- Mongo `update_one`: apply `f` to the first document matching `p`,
leave the rest untouched. -/
def update_first (p : Doc → Bool) (f : Doc → Doc) : List Doc → List Doc
  | [] => []
  | d :: ds => if p d then f d :: ds else d :: update_first p f ds

/-- A Mongo equality query whose value may be `null` against a field that
always holds a string (`parent_directory_id`): a `null` query value matches
no such document. -/
def mongo_str_eq (field : String) (query : Option String) : Bool :=
  match query with
  | some v => field == v
  | none => false

/-! ### Catalog Engine handlers

Each handler takes the auth oracle and the `authorization` metadata value in
place of the gRPC `context` and returns `Except RpcError` since
`context.abort` raises. -/

/-- The `$set` document built by `UpdateDirectory`: `name` only when truthy,
`parent_id` unless it is the `"no_change"` sentinel (empty string stored as
`null`), `is_public` when it differs from the stored value (`doc.get`,
`None` when the key is absent), each ACL list only when non-empty.  The
source skips the store write when no field is collected; writing the
unchanged document back is observationally the same here. -/
def apply_dir_update (doc : Doc) (request : UpdateDirectoryRequest) : Doc :=
  { doc with
    name := if py_truthy request.name then request.name else doc.name
    parent_id := if request.parent_id ≠ "no_change"
      then (if py_truthy request.parent_id then some request.parent_id else none)
      else doc.parent_id
    is_public := if some request.is_public ≠ doc.is_public
      then some request.is_public else doc.is_public
    allowed_readers := if request.allowed_readers ≠ []
      then some request.allowed_readers else doc.allowed_readers
    allowed_writers := if request.allowed_writers ≠ []
      then some request.allowed_writers else doc.allowed_writers }

/-- The `$set` document built by `UpdateFile`: as for directories but with
no parent field. -/
def apply_file_update (doc : Doc) (request : UpdateFileRequest) : Doc :=
  { doc with
    name := if py_truthy request.name then request.name else doc.name
    is_public := if some request.is_public ≠ doc.is_public
      then some request.is_public else doc.is_public
    allowed_readers := if request.allowed_readers ≠ []
      then some request.allowed_readers else doc.allowed_readers
    allowed_writers := if request.allowed_writers ≠ []
      then some request.allowed_writers else doc.allowed_writers }

/-- Embeds `CatalogService.UpdateDirectory`.  The re-fetch after the write mirrors
the source; its `none` branch corresponds to the `except` clause aborting
with `INTERNAL`. -/
def UpdateDirectory (auth_stub : String → Option Nat)
    (authorization : Option String) (request : UpdateDirectoryRequest)
    (s : Store) : Except RpcError (DirectoryResponse × Store) :=
  let ident := get_user_identity auth_stub authorization
  if !ident.is_authenticated then .error ⟨.UNAUTHENTICATED, "Auth required"⟩
  else
    match s.dirs_col.find? (fun d => d.docId == request.id) with
    | none => .error ⟨.NOT_FOUND, "Directory not found"⟩
    | some doc =>
      if !can_write doc ident.user_id then
        .error ⟨.PERMISSION_DENIED, "No write permission"⟩
      else
        let dirs' := update_first (fun d => d.docId == request.id)
          (fun _ => apply_dir_update doc request) s.dirs_col
        let s' : Store := ⟨dirs', s.files_col⟩
        match dirs'.find? (fun d => d.docId == request.id) with
        | some updated => .ok (directory_response updated, s')
        | none => .error ⟨.INTERNAL, "Update failed"⟩

/-- Embeds `CatalogService.UpdateFile`.  The unreachable `none` branch of the
re-fetch models the uncaught exception the source would raise there. -/
def UpdateFile (auth_stub : String → Option Nat)
    (authorization : Option String) (request : UpdateFileRequest)
    (s : Store) : Except RpcError (FileResponse × Store) :=
  let ident := get_user_identity auth_stub authorization
  if !ident.is_authenticated then .error ⟨.UNAUTHENTICATED, "Auth required"⟩
  else
    match s.files_col.find? (fun f => f.docId == request.id) with
    | none => .error ⟨.NOT_FOUND, "File not found"⟩
    | some doc =>
      if !can_write doc ident.user_id then
        .error ⟨.PERMISSION_DENIED, "No write permission"⟩
      else
        let files' := update_first (fun f => f.docId == request.id)
          (fun _ => apply_file_update doc request) s.files_col
        let s' : Store := ⟨s.dirs_col, files'⟩
        match files'.find? (fun f => f.docId == request.id) with
        | some updated => .ok (file_response updated, s')
        | none => .error ⟨.INTERNAL, "Update failed"⟩

/-- Embeds `CatalogService.DeleteDirectory`.  Emptiness is checked only against
`dirs_col` (`count_documents({"parent_id": request.id})`); files under the
directory never block the delete and are removed by `delete_many`. -/
def DeleteDirectory (auth_stub : String → Option Nat)
    (authorization : Option String) (request : DeleteRequest)
    (s : Store) : Except RpcError (DeleteResponse × Store) :=
  let ident := get_user_identity auth_stub authorization
  if !ident.is_authenticated then .error ⟨.UNAUTHENTICATED, "Auth required"⟩
  else
    match s.dirs_col.find? (fun d => d.docId == request.id) with
    | none => .error ⟨.NOT_FOUND, "Not found"⟩
    | some doc =>
      if doc.owner_id ≠ ident.user_id then
        .error ⟨.PERMISSION_DENIED, "Only owner can delete"⟩
      else if s.dirs_col.countP (fun d => d.parent_id == some request.id) > 0 then
        .ok (⟨false, "Directory not empty"⟩, s)
      else
        let files' := s.files_col.filter
          (fun f => !(f.parent_directory_id == request.id))
        let dirs' := s.dirs_col.eraseP (fun d => d.docId == request.id)
        .ok (⟨true, "Deleted"⟩, ⟨dirs', files'⟩)

/-- Embeds `FileServiceClient.delete_files`, instrumented with the list of UUIDs
sent to the file collaborator: one outbound call per id, each call's
outcome (`blob_stub` returning `false` models the RPC raising) caught,
logged and discarded. -/
def delete_files (blob_stub : String → Bool)
    (external_ids : List String) : List String :=
  if external_ids.isEmpty then []
  else external_ids.map (fun ext_id =>
    let _ := blob_stub ext_id
    ext_id)

/-- Embeds `CatalogService.DeleteFile`: owner-only delete, then the catalog
document is removed and the blob collaborator is notified best-effort; the
third component records the outbound blob calls. -/
def DeleteFile (auth_stub : String → Option Nat) (blob_stub : String → Bool)
    (authorization : Option String) (request : DeleteRequest)
    (s : Store) : Except RpcError (DeleteResponse × Store × List String) :=
  let ident := get_user_identity auth_stub authorization
  if !ident.is_authenticated then .error ⟨.UNAUTHENTICATED, "Auth required"⟩
  else
    match s.files_col.find? (fun f => f.docId == request.id) with
    | none => .error ⟨.NOT_FOUND, "File not found"⟩
    | some doc =>
      if doc.owner_id ≠ ident.user_id then
        .error ⟨.PERMISSION_DENIED, "Only owner can delete file"⟩
      else
        let files' := s.files_col.eraseP (fun f => f.docId == request.id)
        let calls := delete_files blob_stub [doc.external_file_id]
        .ok (⟨true, "Deleted"⟩, ⟨s.dirs_col, files'⟩, calls)

/-- The container id used by `GetDirectoryContent`:
`request.directory_id if request.directory_id else None`. -/
def content_pid (request : GetDirectoryRequest) : Option String :=
  if py_truthy request.directory_id then some request.directory_id else none

/-- Embeds `CatalogService.GetDirectoryContent`.  Identity resolution is
best-effort; a requested container must exist and be readable; the listing
then filters every direct child through `_can_read`.  When no id is given
the queries run with `pid = null`: directory children of the root match
(`parent_id` is stored as `null` there) but no file document can, since
`parent_directory_id` always holds a string. -/
def GetDirectoryContent (auth_stub : String → Option Nat)
    (authorization : Option String) (request : GetDirectoryRequest)
    (s : Store) : Except RpcError DirectoryContentResponse :=
  let ident := get_user_identity auth_stub authorization
  let user_id := ident.user_id
  let pid : Option String := content_pid request
  let gate : Except RpcError Unit :=
    match pid with
    | none => .ok ()
    | some p =>
      match s.dirs_col.find? (fun d => d.docId == p) with
      | none => .error ⟨.NOT_FOUND, "Directory not found"⟩
      | some target =>
        if !can_read target user_id then
          .error ⟨.PERMISSION_DENIED,
            "You do not have permission to view this directory"⟩
        else .ok ()
  match gate with
  | .error e => .error e
  | .ok () =>
    let all_subdirs := s.dirs_col.filter (fun d => d.parent_id == pid)
    let all_files := s.files_col.filter
      (fun f => mongo_str_eq f.parent_directory_id pid)
    let visible_dirs :=
      (all_subdirs.filter (fun d => can_read d user_id)).map directory_response
    let visible_files :=
      (all_files.filter (fun f => can_read f user_id)).map file_response
    .ok ⟨visible_dirs, visible_files⟩

/-! ### Store lemmas -/

/-- Re-fetching after `update_one`: if the update preserves the query
predicate, `find?` returns the updated first match. -/
theorem find?_update_first (p : Doc → Bool) (f : Doc → Doc) (l : List Doc)
    (h : ∀ d, p d = true → p (f d) = true) :
    (update_first p f l).find? p = (l.find? p).map f := by
  induction l with
  | nil => rfl
  | cons d ds ih =>
    by_cases hd : p d = true
    · simp [update_first, hd, List.find?, h d hd]
    · simp only [Bool.not_eq_true] at hd
      simp [update_first, hd, List.find?, ih]

/-- Erasure (`delete_one`) on a list holding exactly one match removes every
match. -/
theorem countP_eraseP_eq_zero (p : Doc → Bool) (l : List Doc)
    (h : l.countP p = 1) : (l.eraseP p).countP p = 0 := by
  induction l with
  | nil => simp
  | cons d ds ih =>
    by_cases hd : p d = true
    · have hds : ds.countP p = 0 := by
        rw [List.countP_cons_of_pos p ds hd] at h
        omega
      rw [List.eraseP_cons_of_pos hd]
      exact hds
    · rw [List.eraseP_cons_of_neg hd]
      rw [List.countP_cons_of_neg p ds hd] at h
      rw [List.countP_cons_of_neg p (ds.eraseP p) hd]
      exact ih h

/-- The `$set` of `UpdateDirectory` never touches `_id` or `owner_id`. -/
theorem apply_dir_update_id (doc : Doc) (r : UpdateDirectoryRequest) :
    (apply_dir_update doc r).docId = doc.docId ∧
      (apply_dir_update doc r).owner_id = doc.owner_id :=
  ⟨rfl, rfl⟩

/-- The `$set` of `UpdateFile` never touches `_id`, `owner_id`,
`parent_directory_id` or `external_file_id`. -/
theorem apply_file_update_id (doc : Doc) (r : UpdateFileRequest) :
    (apply_file_update doc r).docId = doc.docId ∧
      (apply_file_update doc r).owner_id = doc.owner_id ∧
      (apply_file_update doc r).parent_directory_id = doc.parent_directory_id ∧
      (apply_file_update doc r).external_file_id = doc.external_file_id :=
  ⟨rfl, rfl, rfl, rfl⟩

/-- The successful path of `UpdateDirectory`: authenticated caller, known
id, write permission.  The handler writes the `$set` document over the
first match and answers with the re-fetched post-update document. -/
theorem UpdateDirectory_ok (auth_stub : String → Option Nat)
    (authorization : Option String) (request : UpdateDirectoryRequest)
    (s : Store) (doc : Doc)
    (hauth : (get_user_identity auth_stub authorization).is_authenticated
      = true)
    (hfind : s.dirs_col.find? (fun d => d.docId == request.id) = some doc)
    (hw : can_write doc (get_user_identity auth_stub authorization).user_id
      = true) :
    UpdateDirectory auth_stub authorization request s =
      .ok (directory_response (apply_dir_update doc request),
        ⟨update_first (fun d => d.docId == request.id)
          (fun _ => apply_dir_update doc request) s.dirs_col, s.files_col⟩) ∧
    (update_first (fun d => d.docId == request.id)
        (fun _ => apply_dir_update doc request) s.dirs_col).find?
        (fun d => d.docId == request.id) = some (apply_dir_update doc request)
    := by
  have hid : (doc.docId == request.id) = true := by
    have h := List.find?_some hfind
    simpa using h
  have hpres : ∀ d : Doc, (d.docId == request.id) = true →
      ((apply_dir_update doc request).docId == request.id) = true := by
    intro d _
    rw [(apply_dir_update_id doc request).1]
    exact hid
  have hre : (update_first (fun d => d.docId == request.id)
      (fun _ => apply_dir_update doc request) s.dirs_col).find?
      (fun d => d.docId == request.id)
      = some (apply_dir_update doc request) := by
    rw [find?_update_first _ _ _ hpres, hfind]
    rfl
  refine ⟨?_, hre⟩
  simp only [UpdateDirectory, hauth, Bool.not_true, Bool.false_eq_true,
    if_false, hfind, hw, hre]

/-- The successful path of `UpdateFile`: authenticated caller, known id,
write permission. -/
theorem UpdateFile_ok (auth_stub : String → Option Nat)
    (authorization : Option String) (request : UpdateFileRequest)
    (s : Store) (doc : Doc)
    (hauth : (get_user_identity auth_stub authorization).is_authenticated
      = true)
    (hfind : s.files_col.find? (fun f => f.docId == request.id) = some doc)
    (hw : can_write doc (get_user_identity auth_stub authorization).user_id
      = true) :
    UpdateFile auth_stub authorization request s =
      .ok (file_response (apply_file_update doc request),
        ⟨s.dirs_col, update_first (fun f => f.docId == request.id)
          (fun _ => apply_file_update doc request) s.files_col⟩) ∧
    (update_first (fun f => f.docId == request.id)
        (fun _ => apply_file_update doc request) s.files_col).find?
        (fun f => f.docId == request.id) = some (apply_file_update doc request)
    := by
  have hid : (doc.docId == request.id) = true := by
    have h := List.find?_some hfind
    simpa using h
  have hpres : ∀ d : Doc, (d.docId == request.id) = true →
      ((apply_file_update doc request).docId == request.id) = true := by
    intro d _
    rw [(apply_file_update_id doc request).1]
    exact hid
  have hre : (update_first (fun f => f.docId == request.id)
      (fun _ => apply_file_update doc request) s.files_col).find?
      (fun f => f.docId == request.id)
      = some (apply_file_update doc request) := by
    rw [find?_update_first _ _ _ hpres, hfind]
    rfl
  refine ⟨?_, hre⟩
  simp only [UpdateFile, hauth, Bool.not_true, Bool.false_eq_true,
    if_false, hfind, hw, hre]

/-! ### Claims -/

/-- C2: for every stored document snapshot and every caller identity
(possibly none), `_can_read` returns true iff the document's `is_public`
flag is true, or the caller is not none and equals `owner_id` or is a
member of `allowed_readers` or of `allowed_writers`; absent ACL fields are
read as `is_public = false` and empty lists, so a document with the ACL
keys missing is read exactly like one carrying the explicit defaults. -/
theorem can_read_spec (doc : Doc) (caller : Option Nat) :
    (can_read doc caller = true ↔
      (doc.is_public.getD false = true ∨
        ∃ u, caller = some u ∧
          (doc.owner_id = some u ∨ u ∈ doc.allowed_readers.getD [] ∨
            u ∈ doc.allowed_writers.getD []))) ∧
    can_read { doc with
        is_public := none
        allowed_readers := none
        allowed_writers := none } caller
      = can_read { doc with
          is_public := some false
          allowed_readers := some []
          allowed_writers := some [] } caller := by
  constructor
  · cases caller with
    | none => simp [can_read]
    | some u =>
      simp only [can_read]
      by_cases hp : doc.is_public.getD false = true
      · simp [hp]
      · simp only [hp]
        simp only [Bool.false_eq_true] at hp
        simp [hp]
  · cases caller <;> simp [can_read]

/-- C3: for every stored document snapshot and every caller identity
(possibly none), `_can_write` returns true iff the caller is not none and
equals `owner_id` or is in `allowed_writers`; an identity that is neither
the owner nor an allowed writer (in particular one appearing only in
`allowed_readers`) is refused, and an identity in `allowed_writers` passes
both `_can_read` and `_can_write`. -/
theorem can_write_spec (doc : Doc) (caller : Option Nat) :
    (can_write doc caller = true ↔
      ∃ u, caller = some u ∧
        (doc.owner_id = some u ∨ u ∈ doc.allowed_writers.getD [])) ∧
    (∀ u, caller = some u → doc.owner_id ≠ some u →
      u ∉ doc.allowed_writers.getD [] → can_write doc caller = false) ∧
    (∀ u, caller = some u → u ∈ doc.allowed_writers.getD [] →
      can_read doc caller = true ∧ can_write doc caller = true) := by
  refine ⟨?_, ?_, ?_⟩
  · cases caller with
    | none => simp [can_write]
    | some u =>
      simp only [can_write]
      by_cases ho : doc.owner_id = some u <;> simp [ho]
  · rintro u rfl ho hw
    simp [can_write, ho, hw]
  · rintro u rfl hw
    refine ⟨?_, ?_⟩
    · simp only [can_read]
      by_cases hp : doc.is_public.getD false = true
      · simp [hp]
      · simp only [hp]
        by_cases ho : doc.owner_id = some u
        · simp [ho]
        · by_cases hr : u ∈ doc.allowed_readers.getD [] <;> simp [ho, hr, hw]
    · by_cases ho : doc.owner_id = some u <;> simp [can_write, ho, hw]

/-- A concrete document with one allowed reader (2) and one allowed
writer (3), owned by 1. -/
def acl_doc : Doc :=
  { docId := "d", name := "n", owner_id := some 1, allowed_readers := some [2], allowed_writers := some [3] }

/-- Witness for C3 at a concrete document: identity 2 appears only in
`allowed_readers` and cannot write; identity 3 is in `allowed_writers` and
can both read and write. -/
theorem can_write_spec_witness :
    can_write acl_doc (some 2) = false ∧
    (can_read acl_doc (some 3) = true ∧ can_write acl_doc (some 3) = true) :=
  ⟨(can_write_spec acl_doc (some 2)).2.1 2 rfl (by decide) (by decide),
   (can_write_spec acl_doc (some 3)).2.2 3 rfl (by decide)⟩

/-- C8: for every request metadata map, `_get_user_identity` returns
`(none, false)` with no call to the identity collaborator when no
credential is present (key absent or empty value); when a truthy
credential is present it makes exactly one collaborator call with the
`Bearer `-stripped token, returning `(identity, true)` on success and
`(none, false)` on failure; and in every case it returns normally with a
result of one of those two shapes (the embedding is a total function, the
collaborator's raising having been folded into its `none` branch). -/
theorem get_user_identity_spec (auth_stub : String → Option Nat)
    (authorization : Option String) :
    ((authorization = none ∨ authorization = some "") →
      get_user_identity auth_stub authorization = ⟨none, false, []⟩) ∧
    (∀ t, authorization = some t → t ≠ "" →
      ((get_user_identity auth_stub authorization).stub_calls
          = [strip_bearer t] ∧
        (∀ u, auth_stub (strip_bearer t) = some u →
          get_user_identity auth_stub authorization
            = ⟨some u, true, [strip_bearer t]⟩) ∧
        (auth_stub (strip_bearer t) = none →
          get_user_identity auth_stub authorization
            = ⟨none, false, [strip_bearer t]⟩))) ∧
    (((get_user_identity auth_stub authorization).user_id = none ∧
        (get_user_identity auth_stub authorization).is_authenticated = false) ∨
      ∃ u, (get_user_identity auth_stub authorization).user_id = some u ∧
        (get_user_identity auth_stub authorization).is_authenticated = true) := by
  refine ⟨?_, ?_, ?_⟩
  · rintro (rfl | rfl)
    · rfl
    · rfl
  · rintro t rfl ht
    have htr : py_truthy t = true := by simp [py_truthy, ht]
    cases hs : auth_stub (strip_bearer t) with
    | none => simp [get_user_identity, htr, hs]
    | some u => simp [get_user_identity, htr, hs]
  · cases authorization with
    | none => left; exact ⟨rfl, rfl⟩
    | some t =>
      by_cases ht : py_truthy t = true
      · cases hs : auth_stub (strip_bearer t) with
        | none => left; simp [get_user_identity, ht, hs]
        | some u => right; exact ⟨u, by simp [get_user_identity, ht, hs]⟩
      · left; simp [get_user_identity, ht]

/-- Witness for C8: with a session table resolving `tok` to user 1, an
absent credential yields anonymous with no outbound call, and the
`Bearer tok` credential yields exactly one call with `tok` and an
authenticated result. -/
theorem get_user_identity_spec_witness :
    get_user_identity (fun t => if t == "tok" then some 1 else none) none
        = ⟨none, false, []⟩ ∧
    get_user_identity (fun t => if t == "tok" then some 1 else none)
        (some "Bearer tok") = ⟨some 1, true, ["tok"]⟩ :=
  ⟨(get_user_identity_spec (fun t => if t == "tok" then some 1 else none)
      none).1 (Or.inl rfl),
   ((get_user_identity_spec (fun t => if t == "tok" then some 1 else none)
      (some "Bearer tok")).2.1 "Bearer tok" rfl (by decide)).2.1 1 (by decide)⟩

/-- The token value the interceptor feeds to the auth collaborator is the
`Bearer `-stripped credential, for any credential value. -/
theorem interceptor_token_norm (t : String) :
    (if py_truthy t && py_startswith t "Bearer "
      then some ((py_split t ' ').getD 1 "") else some t)
      = some (strip_bearer t) := by
  by_cases ht : t = ""
  · subst ht; rfl
  · have htr : py_truthy t = true := by simp [py_truthy, ht]
    simp only [htr, Bool.true_and, strip_bearer]
    by_cases hb : py_startswith t "Bearer " <;> simp [hb]

/-- The interceptor's `is_authenticated` flag, as a function of the
credential: truthy stripped token and a successful collaborator call. -/
def gate_authenticated (auth_stub : String → Option Nat) :
    Option String → Bool
  | none => false
  | some t => py_truthy (strip_bearer t) && (auth_stub (strip_bearer t)).isSome

/-- The gate `intercept_service` is the three-way decision over
`gate_authenticated` and `is_read_op`. -/
theorem intercept_service_eq (auth_stub : String → Option Nat)
    (method_name : String) (authorization : Option String) :
    intercept_service auth_stub method_name authorization =
      if gate_authenticated auth_stub authorization then .Passed
      else if is_read_op method_name then .Passed
      else .Rejected .UNAUTHENTICATED "Auth required" := by
  cases authorization with
  | none => rfl
  | some t =>
    simp only [intercept_service]
    simp only [interceptor_token_norm]
    simp only [gate_authenticated]
    by_cases hne : py_truthy (strip_bearer t) = true
    · simp [hne]
    · simp only [Bool.not_eq_true] at hne
      simp [hne]

/-- The interceptor's authentication flag holds exactly for a credential
whose stripped token is non-empty and resolved by the collaborator. -/
theorem gate_authenticated_iff (auth_stub : String → Option Nat)
    (authorization : Option String) :
    gate_authenticated auth_stub authorization = true ↔
      ∃ t, authorization = some t ∧ strip_bearer t ≠ "" ∧
        (auth_stub (strip_bearer t)).isSome = true := by
  cases authorization with
  | none => simp [gate_authenticated]
  | some t => simp [gate_authenticated, py_truthy]

/-- C4: the request gate classifies a call as read-intent exactly when the
last `/`-segment of the operation name contains `"Get"`; a caller whose
(possibly `Bearer `-prefixed) token the collaborator resolves always
passes; any other caller — no credential, empty credential, or a token the
collaborator fails on — passes exactly the read-intent calls and is
rejected with `UNAUTHENTICATED` (the handler never running) on
write-intent calls. -/
theorem intercept_service_spec (auth_stub : String → Option Nat)
    (method_name : String) (authorization : Option String) :
    (is_read_op method_name
        = has_substr "Get" ((py_split method_name '/').getLastD "")) ∧
    ((∃ t, authorization = some t ∧ strip_bearer t ≠ "" ∧
        (auth_stub (strip_bearer t)).isSome = true) →
      intercept_service auth_stub method_name authorization = .Passed) ∧
    ((¬ ∃ t, authorization = some t ∧ strip_bearer t ≠ "" ∧
        (auth_stub (strip_bearer t)).isSome = true) →
      ((intercept_service auth_stub method_name authorization = .Passed ↔
          is_read_op method_name = true) ∧
        (is_read_op method_name = false →
          intercept_service auth_stub method_name authorization
            = .Rejected .UNAUTHENTICATED "Auth required"))) := by
  refine ⟨rfl, ?_, ?_⟩
  · intro h
    rw [intercept_service_eq,
      if_pos ((gate_authenticated_iff auth_stub authorization).mpr h)]
  · intro hno
    have hg : gate_authenticated auth_stub authorization = false := by
      cases hg : gate_authenticated auth_stub authorization
      · rfl
      · exact absurd ((gate_authenticated_iff auth_stub authorization).mp hg)
          hno
    rw [intercept_service_eq, hg]
    cases hro : is_read_op method_name <;> simp

/-- Witness for C4: with a session table resolving `tok` to user 1, the
authenticated caller passes a write-intent call, the anonymous caller
passes the read-intent `GetDirectoryContent` and is rejected on
`CreateDirectory`. -/
theorem intercept_service_spec_witness :
    intercept_service (fun t => if t == "tok" then some 1 else none)
        "/catalog.CatalogService/CreateDirectory" (some "Bearer tok")
        = .Passed ∧
    (intercept_service (fun t => if t == "tok" then some 1 else none)
        "/catalog.CatalogService/GetDirectoryContent" none = .Passed ∧
      intercept_service (fun t => if t == "tok" then some 1 else none)
        "/catalog.CatalogService/CreateDirectory" none
        = .Rejected .UNAUTHENTICATED "Auth required") :=
  ⟨(intercept_service_spec (fun t => if t == "tok" then some 1 else none)
      "/catalog.CatalogService/CreateDirectory" (some "Bearer tok")).2.1
      ⟨"Bearer tok", rfl, by decide, by decide⟩,
   ((intercept_service_spec (fun t => if t == "tok" then some 1 else none)
      "/catalog.CatalogService/GetDirectoryContent" none).2.2
      (by rintro ⟨t, h, -, -⟩; cases h)).1.mpr (by decide),
   ((intercept_service_spec (fun t => if t == "tok" then some 1 else none)
      "/catalog.CatalogService/CreateDirectory" none).2.2
      (by rintro ⟨t, h, -, -⟩; cases h)).2 (by decide)⟩

/-- C5: for an authenticated caller with write permission on an existing
object, `UpdateDirectory` (and `UpdateFile`, which has no parent field)
applies fields partially: `name` only when non-empty; `parent_id` only
when it differs from the `"no_change"` sentinel, empty string meaning the
root sentinel; `is_public` only when the request value differs from the
stored value; each ACL list only when non-empty; every other field keeps
its stored value; and the call returns the object as stored after the
update. -/
theorem update_sentinel_semantics (auth_stub : String → Option Nat)
    (authorization : Option String) (reqD : UpdateDirectoryRequest)
    (reqF : UpdateFileRequest) (s : Store) (docD docF : Doc)
    (hauth : (get_user_identity auth_stub authorization).is_authenticated
      = true)
    (hD : s.dirs_col.find? (fun d => d.docId == reqD.id) = some docD)
    (hwD : can_write docD (get_user_identity auth_stub authorization).user_id
      = true)
    (hF : s.files_col.find? (fun f => f.docId == reqF.id) = some docF)
    (hwF : can_write docF (get_user_identity auth_stub authorization).user_id
      = true) :
    (∃ s' d', UpdateDirectory auth_stub authorization reqD s
        = .ok (directory_response d', s') ∧
      s'.dirs_col.find? (fun d => d.docId == reqD.id) = some d' ∧
      s'.files_col = s.files_col ∧
      d'.name = (if reqD.name = "" then docD.name else reqD.name) ∧
      d'.parent_id = (if reqD.parent_id = "no_change" then docD.parent_id
        else if reqD.parent_id = "" then none else some reqD.parent_id) ∧
      d'.is_public = (if some reqD.is_public = docD.is_public
        then docD.is_public else some reqD.is_public) ∧
      d'.allowed_readers = (if reqD.allowed_readers = []
        then docD.allowed_readers else some reqD.allowed_readers) ∧
      d'.allowed_writers = (if reqD.allowed_writers = []
        then docD.allowed_writers else some reqD.allowed_writers) ∧
      d'.docId = docD.docId ∧ d'.owner_id = docD.owner_id) ∧
    (∃ s' d', UpdateFile auth_stub authorization reqF s
        = .ok (file_response d', s') ∧
      s'.files_col.find? (fun f => f.docId == reqF.id) = some d' ∧
      s'.dirs_col = s.dirs_col ∧
      d'.name = (if reqF.name = "" then docF.name else reqF.name) ∧
      d'.parent_directory_id = docF.parent_directory_id ∧
      d'.external_file_id = docF.external_file_id ∧
      d'.is_public = (if some reqF.is_public = docF.is_public
        then docF.is_public else some reqF.is_public) ∧
      d'.allowed_readers = (if reqF.allowed_readers = []
        then docF.allowed_readers else some reqF.allowed_readers) ∧
      d'.allowed_writers = (if reqF.allowed_writers = []
        then docF.allowed_writers else some reqF.allowed_writers) ∧
      d'.docId = docF.docId ∧ d'.owner_id = docF.owner_id) := by
  obtain ⟨hokD, hreD⟩ :=
    UpdateDirectory_ok auth_stub authorization reqD s docD hauth hD hwD
  obtain ⟨hokF, hreF⟩ :=
    UpdateFile_ok auth_stub authorization reqF s docF hauth hF hwF
  constructor
  · refine ⟨_, apply_dir_update docD reqD, hokD, hreD, rfl, ?_, ?_, ?_, ?_,
      ?_, rfl, rfl⟩
    · simp only [apply_dir_update]
      by_cases h : reqD.name = "" <;> simp [py_truthy, h]
    · simp only [apply_dir_update]
      by_cases h : reqD.parent_id = "no_change"
      · simp [h]
      · by_cases h2 : reqD.parent_id = "" <;> simp [py_truthy, h, h2]
    · simp only [apply_dir_update]
      by_cases h : some reqD.is_public = docD.is_public <;> simp [h]
    · simp only [apply_dir_update]
      by_cases h : reqD.allowed_readers = [] <;> simp [h]
    · simp only [apply_dir_update]
      by_cases h : reqD.allowed_writers = [] <;> simp [h]
  · refine ⟨_, apply_file_update docF reqF, hokF, hreF, rfl, ?_, rfl, rfl,
      ?_, ?_, ?_, rfl, rfl⟩
    · simp only [apply_file_update]
      by_cases h : reqF.name = "" <;> simp [py_truthy, h]
    · simp only [apply_file_update]
      by_cases h : some reqF.is_public = docF.is_public <;> simp [h]
    · simp only [apply_file_update]
      by_cases h : reqF.allowed_readers = [] <;> simp [h]
    · simp only [apply_file_update]
      by_cases h : reqF.allowed_writers = [] <;> simp [h]

/-- Concrete store for the update witnesses: directory `d1` and file `f1`,
both owned by user 1 and private. -/
def upd_store : Store :=
  ⟨[{ docId := "d1", name := "Dir", owner_id := some 1 }],
   [{ docId := "f1", name := "File", parent_directory_id := "d1", external_file_id := "e1", owner_id := some 1 }]⟩

/-- The session table resolving `tok` to user 1. -/
def tok_stub : String → Option Nat :=
  fun t => if t == "tok" then some 1 else none

/-- Witness for C5: the owner updates `d1` with an empty name and the
`no_change` parent sentinel, and `f1` with an empty name; both stored
names survive and the responses echo the stored objects. -/
theorem update_sentinel_semantics_witness :
    (∃ s' d', UpdateDirectory tok_stub (some "tok")
        { id := "d1", parent_id := "no_change" } upd_store
        = .ok (directory_response d', s') ∧
      s'.dirs_col.find? (fun d => d.docId == "d1") = some d' ∧
      s'.files_col = upd_store.files_col ∧
      d'.name = "Dir" ∧ d'.parent_id = none ∧ d'.is_public = some false ∧
      d'.allowed_readers = none ∧ d'.allowed_writers = none ∧
      d'.docId = "d1" ∧ d'.owner_id = some 1) ∧
    (∃ s' d', UpdateFile tok_stub (some "tok") { id := "f1" } upd_store
        = .ok (file_response d', s') ∧
      s'.files_col.find? (fun f => f.docId == "f1") = some d' ∧
      s'.dirs_col = upd_store.dirs_col ∧
      d'.name = "File" ∧ d'.parent_directory_id = "d1" ∧
      d'.external_file_id = "e1" ∧ d'.is_public = some false ∧
      d'.allowed_readers = none ∧ d'.allowed_writers = none ∧
      d'.docId = "f1" ∧ d'.owner_id = some 1) := by
  have h := update_sentinel_semantics tok_stub (some "tok")
    { id := "d1", parent_id := "no_change" } { id := "f1" } upd_store
    { docId := "d1", name := "Dir", owner_id := some 1 }
    { docId := "f1", name := "File", parent_directory_id := "d1", external_file_id := "e1", owner_id := some 1 }
    (by decide) (by decide) (by decide) (by decide) (by decide)
  exact h

/-- The `$set` of `UpdateDirectory` always leaves `is_public` equal to the
request's value: kept when already equal, overwritten when different. -/
theorem apply_dir_update_is_public (doc : Doc) (r : UpdateDirectoryRequest) :
    (apply_dir_update doc r).is_public = some r.is_public := by
  simp only [apply_dir_update]
  by_cases h : some r.is_public = doc.is_public
  · simp [h]
  · simp [h]

/-- The `$set` of `UpdateFile` always leaves `is_public` equal to the
request's value. -/
theorem apply_file_update_is_public (doc : Doc) (r : UpdateFileRequest) :
    (apply_file_update doc r).is_public = some r.is_public := by
  simp only [apply_file_update]
  by_cases h : some r.is_public = doc.is_public
  · simp [h]
  · simp [h]

/-- C10: after every successful `UpdateDirectory` or `UpdateFile`, the
stored `is_public` equals the request's `is_public` (the field is written
exactly when the request value differs from the stored one, so no request
value can leave a differing stored flag untouched), and the response
echoes it; a caller sending the proto default `is_public = false` while
updating other fields therefore makes a public object private. -/
theorem update_is_public_overwrite (auth_stub : String → Option Nat)
    (authorization : Option String) (reqD : UpdateDirectoryRequest)
    (reqF : UpdateFileRequest) (s : Store) (docD docF : Doc)
    (hauth : (get_user_identity auth_stub authorization).is_authenticated
      = true)
    (hD : s.dirs_col.find? (fun d => d.docId == reqD.id) = some docD)
    (hwD : can_write docD (get_user_identity auth_stub authorization).user_id
      = true)
    (hF : s.files_col.find? (fun f => f.docId == reqF.id) = some docF)
    (hwF : can_write docF (get_user_identity auth_stub authorization).user_id
      = true) :
    (∃ s' d', UpdateDirectory auth_stub authorization reqD s
        = .ok (directory_response d', s') ∧
      s'.dirs_col.find? (fun d => d.docId == reqD.id) = some d' ∧
      d'.is_public = some reqD.is_public ∧
      (directory_response d').is_public = reqD.is_public) ∧
    (∃ s' d', UpdateFile auth_stub authorization reqF s
        = .ok (file_response d', s') ∧
      s'.files_col.find? (fun f => f.docId == reqF.id) = some d' ∧
      d'.is_public = some reqF.is_public ∧
      (file_response d').is_public = reqF.is_public) := by
  obtain ⟨hokD, hreD⟩ :=
    UpdateDirectory_ok auth_stub authorization reqD s docD hauth hD hwD
  obtain ⟨hokF, hreF⟩ :=
    UpdateFile_ok auth_stub authorization reqF s docF hauth hF hwF
  constructor
  · refine ⟨_, apply_dir_update docD reqD, hokD, hreD,
      apply_dir_update_is_public docD reqD, ?_⟩
    simp [directory_response, apply_dir_update_is_public docD reqD]
  · refine ⟨_, apply_file_update docF reqF, hokF, hreF,
      apply_file_update_is_public docF reqF, ?_⟩
    simp [file_response, apply_file_update_is_public docF reqF]

/-- Concrete store for the C10 witness: a public directory and a public
file, both owned by user 1. -/
def pub_store : Store :=
  ⟨[{ docId := "d1", name := "Dir", owner_id := some 1, is_public := some true }],
   [{ docId := "f1", name := "File", parent_directory_id := "d1", external_file_id := "e1", owner_id := some 1, is_public := some true }]⟩

/-- Witness for C10: the owner renames the public directory `d1` and the
public file `f1` while sending the proto default `is_public = false`; both
stored flags silently become `false`. -/
theorem update_is_public_overwrite_witness :
    (∃ s' d', UpdateDirectory tok_stub (some "tok")
        { id := "d1", name := "Renamed", parent_id := "no_change" } pub_store
        = .ok (directory_response d', s') ∧
      s'.dirs_col.find? (fun d => d.docId == "d1") = some d' ∧
      d'.is_public = some false ∧
      (directory_response d').is_public = false) ∧
    (∃ s' d', UpdateFile tok_stub (some "tok")
        { id := "f1", name := "Renamed" } pub_store
        = .ok (file_response d', s') ∧
      s'.files_col.find? (fun f => f.docId == "f1") = some d' ∧
      d'.is_public = some false ∧
      (file_response d').is_public = false) := by
  have h := update_is_public_overwrite tok_stub (some "tok")
    { id := "d1", name := "Renamed", parent_id := "no_change" }
    { id := "f1", name := "Renamed" } pub_store
    { docId := "d1", name := "Dir", owner_id := some 1, is_public := some true }
    { docId := "f1", name := "File", parent_directory_id := "d1", external_file_id := "e1", owner_id := some 1, is_public := some true }
    (by decide) (by decide) (by decide) (by decide) (by decide)
  exact h

/-- C6: for an authenticated caller `u` and an existing object,
`DeleteDirectory` and `DeleteFile` abort with `PERMISSION_DENIED` exactly
when `u` differs from the stored `owner_id`; in particular a member of
`allowed_writers` who is not the owner is denied the delete while
`UpdateDirectory`/`UpdateFile` succeed for that same caller. -/
theorem delete_requires_ownership (auth_stub : String → Option Nat)
    (blob_stub : String → Bool) (authorization : Option String)
    (reqD reqF : DeleteRequest) (updD : UpdateDirectoryRequest)
    (updF : UpdateFileRequest) (s : Store) (dirDoc fileDoc : Doc) (u : Nat)
    (hauth : (get_user_identity auth_stub authorization).is_authenticated
      = true)
    (huser : (get_user_identity auth_stub authorization).user_id = some u)
    (hdir : s.dirs_col.find? (fun d => d.docId == reqD.id) = some dirDoc)
    (hfile : s.files_col.find? (fun f => f.docId == reqF.id) = some fileDoc) :
    (DeleteDirectory auth_stub authorization reqD s
        = .error ⟨.PERMISSION_DENIED, "Only owner can delete"⟩ ↔
      dirDoc.owner_id ≠ some u) ∧
    (DeleteFile auth_stub blob_stub authorization reqF s
        = .error ⟨.PERMISSION_DENIED, "Only owner can delete file"⟩ ↔
      fileDoc.owner_id ≠ some u) ∧
    (u ∈ dirDoc.allowed_writers.getD [] → dirDoc.owner_id ≠ some u →
      updD.id = reqD.id →
      ∃ resp s', UpdateDirectory auth_stub authorization updD s
        = .ok (resp, s')) ∧
    (u ∈ fileDoc.allowed_writers.getD [] → fileDoc.owner_id ≠ some u →
      updF.id = reqF.id →
      ∃ resp s', UpdateFile auth_stub authorization updF s
        = .ok (resp, s')) := by
  refine ⟨?_, ?_, ?_, ?_⟩
  · simp only [DeleteDirectory, hauth, Bool.not_true, Bool.false_eq_true,
      if_false, hdir, huser]
    by_cases ho : dirDoc.owner_id = some u
    · simp only [ho, ne_eq, not_true_eq_false, iff_false, if_false]
      split <;> simp
    · simp [ho]
  · simp only [DeleteFile, hauth, Bool.not_true, Bool.false_eq_true,
      if_false, hfile, huser]
    by_cases ho : fileDoc.owner_id = some u
    · simp [ho]
    · simp [ho]
  · intro hw ho hid
    have hcw : can_write dirDoc
        (get_user_identity auth_stub authorization).user_id = true := by
      rw [huser]
      simp [can_write, ho, hw]
    have hfind : s.dirs_col.find? (fun d => d.docId == updD.id)
        = some dirDoc := by rw [hid]; exact hdir
    exact ⟨_, _,
      (UpdateDirectory_ok auth_stub authorization updD s dirDoc hauth hfind
        hcw).1⟩
  · intro hw ho hid
    have hcw : can_write fileDoc
        (get_user_identity auth_stub authorization).user_id = true := by
      rw [huser]
      simp [can_write, ho, hw]
    have hfind : s.files_col.find? (fun f => f.docId == updF.id)
        = some fileDoc := by rw [hid]; exact hfile
    exact ⟨_, _,
      (UpdateFile_ok auth_stub authorization updF s fileDoc hauth hfind
        hcw).1⟩

/-- Concrete store for the C6 witness: directory `d1` and file `f1`, both
owned by user 1 with user 2 in `allowed_writers`. -/
def writer_store : Store :=
  ⟨[{ docId := "d1", name := "Dir", owner_id := some 1, allowed_writers := some [2] }],
   [{ docId := "f1", name := "File", parent_directory_id := "d1", external_file_id := "e1", owner_id := some 1, allowed_writers := some [2] }]⟩

/-- The session table resolving `tok2` to user 2. -/
def tok2_stub : String → Option Nat :=
  fun t => if t == "tok2" then some 2 else none

/-- Witness for C6: user 2, an allowed writer but not the owner, is denied
both deletes while both updates succeed for the very same caller. -/
theorem delete_requires_ownership_witness :
    DeleteDirectory tok2_stub (some "tok2") ⟨"d1"⟩ writer_store
        = .error ⟨.PERMISSION_DENIED, "Only owner can delete"⟩ ∧
    DeleteFile tok2_stub (fun _ => true) (some "tok2") ⟨"f1"⟩ writer_store
        = .error ⟨.PERMISSION_DENIED, "Only owner can delete file"⟩ ∧
    (∃ resp s', UpdateDirectory tok2_stub (some "tok2")
        { id := "d1", name := "W", parent_id := "no_change" } writer_store
        = .ok (resp, s')) ∧
    (∃ resp s', UpdateFile tok2_stub (some "tok2") { id := "f1", name := "W" }
        writer_store = .ok (resp, s')) := by
  have h := delete_requires_ownership tok2_stub (fun _ => true) (some "tok2")
    ⟨"d1"⟩ ⟨"f1"⟩ { id := "d1", name := "W", parent_id := "no_change" }
    { id := "f1", name := "W" } writer_store
    { docId := "d1", name := "Dir", owner_id := some 1, allowed_writers := some [2] }
    { docId := "f1", name := "File", parent_directory_id := "d1", external_file_id := "e1", owner_id := some 1, allowed_writers := some [2] }
    2 (by decide) (by decide) (by decide) (by decide)
  exact ⟨h.1.mpr (by decide), h.2.1.mpr (by decide),
    h.2.2.1 (by decide) (by decide) rfl, h.2.2.2 (by decide) (by decide) rfl⟩

/-- Counterexample to C1 as stated: in `upd_store` the file `f1`
references directory `d1` through `parent_directory_id`, yet the
authenticated owner's `DeleteDirectory("d1")` returns `success = true` and
removes both documents — a referencing File neither blocks the delete nor
leaves the store unchanged. -/
theorem delete_directory_file_child_counterexample :
    upd_store.files_col.countP (fun f => f.parent_directory_id == "d1") = 1 ∧
    DeleteDirectory tok_stub (some "tok") ⟨"d1"⟩ upd_store
      = .ok (⟨true, "Deleted"⟩, ⟨[], []⟩) ∧
    (⟨[], []⟩ : Store) ≠ upd_store := by
  refine ⟨by decide, by decide, by decide⟩

/-- C1 (amended): for an authenticated owner of an existing directory D,
`DeleteDirectory(D)` returns `success = false` with message
`Directory not empty` and an unchanged store exactly when at least one
Directory references D through `parent_id`; referencing Files do not block
the delete: when no child Directory exists the call removes every File
whose `parent_directory_id` is D (and only those), removes D itself, and
returns `success = true`. -/
theorem delete_directory_amended (auth_stub : String → Option Nat)
    (authorization : Option String) (request : DeleteRequest) (s : Store)
    (doc : Doc) (u : Nat)
    (hauth : (get_user_identity auth_stub authorization).is_authenticated
      = true)
    (huser : (get_user_identity auth_stub authorization).user_id = some u)
    (hfind : s.dirs_col.find? (fun d => d.docId == request.id) = some doc)
    (howner : doc.owner_id = some u) :
    (s.dirs_col.countP (fun d => d.parent_id == some request.id) > 0 →
      DeleteDirectory auth_stub authorization request s
        = .ok (⟨false, "Directory not empty"⟩, s)) ∧
    (s.dirs_col.countP (fun d => d.parent_id == some request.id) = 0 →
      ∃ s', DeleteDirectory auth_stub authorization request s
          = .ok (⟨true, "Deleted"⟩, s') ∧
        (∀ f ∈ s'.files_col, f ∈ s.files_col ∧
          ¬(f.parent_directory_id = request.id)) ∧
        (∀ f ∈ s.files_col, ¬(f.parent_directory_id = request.id) →
          f ∈ s'.files_col) ∧
        (∀ d ∈ s'.dirs_col, d ∈ s.dirs_col) ∧
        (s.dirs_col.countP (fun d => d.docId == request.id) = 1 →
          s'.dirs_col.countP (fun d => d.docId == request.id) = 0)) := by
  have hno : ¬(doc.owner_id ≠ (get_user_identity auth_stub
      authorization).user_id) := by
    rw [huser, howner]
    simp
  constructor
  · intro hc
    simp only [DeleteDirectory, hauth, Bool.not_true, Bool.false_eq_true,
      if_false, hfind, if_neg hno, if_pos hc]
  · intro hc0
    have hc : ¬(s.dirs_col.countP (fun d => d.parent_id == some request.id)
        > 0) := by omega
    refine ⟨⟨s.dirs_col.eraseP (fun d => d.docId == request.id),
      s.files_col.filter (fun f => !(f.parent_directory_id == request.id))⟩,
      ?_, ?_, ?_, ?_, ?_⟩
    · simp only [DeleteDirectory, hauth, Bool.not_true, Bool.false_eq_true,
        if_false, hfind, if_neg hno, if_neg hc]
    · intro f hf
      rw [List.mem_filter] at hf
      refine ⟨hf.1, ?_⟩
      have := hf.2
      simp only [Bool.not_eq_true', beq_eq_false_iff_ne, ne_eq] at this
      exact this
    · intro f hf hne
      rw [List.mem_filter]
      exact ⟨hf, by simp [hne]⟩
    · intro d hd
      exact List.mem_of_mem_eraseP hd
    · intro h1
      exact countP_eraseP_eq_zero _ _ h1

/-- Witness for C1 (amended), success branch: in `upd_store` no Directory
references `d1`, so the owner's delete succeeds, dropping exactly the file
`f1` under it and the directory itself. -/
theorem delete_directory_amended_witness :
    ∃ s', DeleteDirectory tok_stub (some "tok") ⟨"d1"⟩ upd_store
        = .ok (⟨true, "Deleted"⟩, s') ∧
      (∀ f ∈ s'.files_col, f ∈ upd_store.files_col ∧
        ¬(f.parent_directory_id = "d1")) ∧
      (∀ f ∈ upd_store.files_col, ¬(f.parent_directory_id = "d1") →
        f ∈ s'.files_col) ∧
      (∀ d ∈ s'.dirs_col, d ∈ upd_store.dirs_col) ∧
      (upd_store.dirs_col.countP (fun d => d.docId == "d1") = 1 →
        s'.dirs_col.countP (fun d => d.docId == "d1") = 0) :=
  (delete_directory_amended tok_stub (some "tok") ⟨"d1"⟩ upd_store
    { docId := "d1", name := "Dir", owner_id := some 1 } 1
    (by decide) (by decide) (by decide) (by decide)).2 (by decide)

/-- C9: for an authenticated owner deleting an existing File, `DeleteFile`
removes the catalog document and issues exactly one blob-deletion call
carrying the file's `external_file_id`; the result — committed catalog
deletion and `success = true` — is the same for every behaviour of the
blob collaborator, so an outbound failure is swallowed and never rolls the
catalog deletion back. -/
theorem delete_file_best_effort (auth_stub : String → Option Nat)
    (authorization : Option String) (request : DeleteRequest) (s : Store)
    (doc : Doc) (u : Nat)
    (hauth : (get_user_identity auth_stub authorization).is_authenticated
      = true)
    (huser : (get_user_identity auth_stub authorization).user_id = some u)
    (hfind : s.files_col.find? (fun f => f.docId == request.id) = some doc)
    (howner : doc.owner_id = some u) :
    (∀ blob_stub : String → Bool,
      DeleteFile auth_stub blob_stub authorization request s
        = .ok (⟨true, "Deleted"⟩,
            ⟨s.dirs_col, s.files_col.eraseP (fun f => f.docId == request.id)⟩,
            [doc.external_file_id])) ∧
    (s.files_col.countP (fun f => f.docId == request.id) = 1 →
      (s.files_col.eraseP (fun f => f.docId == request.id)).countP
        (fun f => f.docId == request.id) = 0) := by
  have hno : ¬(doc.owner_id ≠ (get_user_identity auth_stub
      authorization).user_id) := by
    rw [huser, howner]
    simp
  constructor
  · intro blob_stub
    simp only [DeleteFile, hauth, Bool.not_true, Bool.false_eq_true,
      if_false, hfind, if_neg hno, delete_files, List.isEmpty_cons,
      Bool.false_eq_true, if_false, List.map]
  · exact countP_eraseP_eq_zero _ _

/-- Witness for C9: the owner of `f1` in `upd_store` deletes it; with a
succeeding blob collaborator and with a failing one the result is the same
`success = true`, the file document is gone, and exactly one blob call
with `e1` was made. -/
theorem delete_file_best_effort_witness :
    DeleteFile tok_stub (fun _ => true) (some "tok") ⟨"f1"⟩ upd_store
        = .ok (⟨true, "Deleted"⟩,
            ⟨upd_store.dirs_col,
              upd_store.files_col.eraseP (fun f => f.docId == "f1")⟩,
            ["e1"]) ∧
    DeleteFile tok_stub (fun _ => false) (some "tok") ⟨"f1"⟩ upd_store
        = .ok (⟨true, "Deleted"⟩,
            ⟨upd_store.dirs_col,
              upd_store.files_col.eraseP (fun f => f.docId == "f1")⟩,
            ["e1"]) :=
  ⟨(delete_file_best_effort tok_stub (some "tok") ⟨"f1"⟩ upd_store
      { docId := "f1", name := "File", parent_directory_id := "d1", external_file_id := "e1", owner_id := some 1 }
      1 (by decide) (by decide) (by decide) (by decide)).1 (fun _ => true),
   (delete_file_best_effort tok_stub (some "tok") ⟨"f1"⟩ upd_store
      { docId := "f1", name := "File", parent_directory_id := "d1", external_file_id := "e1", owner_id := some 1 }
      1 (by decide) (by decide) (by decide) (by decide)).1 (fun _ => false)⟩

/-- C7: for every caller, anonymous included, `GetDirectoryContent` with a
specific container fails with `NOT_FOUND` when the id is unknown and with
`PERMISSION_DENIED` when the resolved caller cannot read the container;
otherwise — and always for the root listing — it returns exactly the
direct children (directories by `parent_id`, files by the
`parent_directory_id` store query) that pass `_can_read` for this caller,
silently omitting every other child. -/
theorem get_directory_content_spec (auth_stub : String → Option Nat)
    (authorization : Option String) (request : GetDirectoryRequest)
    (s : Store) :
    (∀ p, content_pid request = some p →
      s.dirs_col.find? (fun d => d.docId == p) = none →
      GetDirectoryContent auth_stub authorization request s
        = .error ⟨.NOT_FOUND, "Directory not found"⟩) ∧
    (∀ p target, content_pid request = some p →
      s.dirs_col.find? (fun d => d.docId == p) = some target →
      can_read target (get_user_identity auth_stub authorization).user_id
        = false →
      GetDirectoryContent auth_stub authorization request s
        = .error ⟨.PERMISSION_DENIED,
            "You do not have permission to view this directory"⟩) ∧
    ((content_pid request = none ∨
      ∃ p target, content_pid request = some p ∧
        s.dirs_col.find? (fun d => d.docId == p) = some target ∧
        can_read target (get_user_identity auth_stub authorization).user_id
          = true) →
      GetDirectoryContent auth_stub authorization request s
        = .ok ⟨((s.dirs_col.filter
              (fun d => d.parent_id == content_pid request)).filter
              (fun d => can_read d
                (get_user_identity auth_stub authorization).user_id)).map
              directory_response,
            ((s.files_col.filter (fun f =>
              mongo_str_eq f.parent_directory_id (content_pid request))).filter
              (fun f => can_read f
                (get_user_identity auth_stub authorization).user_id)).map
              file_response⟩) ∧
    (∀ d, d ∈ (s.dirs_col.filter
        (fun d => d.parent_id == content_pid request)).filter
        (fun d => can_read d
          (get_user_identity auth_stub authorization).user_id) ↔
      (d ∈ s.dirs_col ∧ d.parent_id = content_pid request ∧
        can_read d (get_user_identity auth_stub authorization).user_id
          = true)) ∧
    (∀ f, f ∈ (s.files_col.filter (fun f =>
        mongo_str_eq f.parent_directory_id (content_pid request))).filter
        (fun f => can_read f
          (get_user_identity auth_stub authorization).user_id) ↔
      (f ∈ s.files_col ∧
        mongo_str_eq f.parent_directory_id (content_pid request) = true ∧
        can_read f (get_user_identity auth_stub authorization).user_id
          = true)) := by
  refine ⟨?_, ?_, ?_, ?_, ?_⟩
  · intro p hp hnone
    simp only [GetDirectoryContent, hp, hnone]
  · intro p target hp hfind hcr
    simp only [GetDirectoryContent, hp, hfind, hcr, Bool.not_false,
      if_true]
  · rintro (hnone | ⟨p, target, hp, hfind, hcr⟩)
    · simp only [GetDirectoryContent, hnone]
    · simp only [GetDirectoryContent, hp, hfind, hcr, Bool.not_true,
        Bool.false_eq_true, if_false]
  · intro d
    simp [List.mem_filter]
    tauto
  · intro f
    simp [List.mem_filter]
    tauto

/-- Concrete store for the C7 witness: public root directory `d3` holding
a public child `d4`, a private child `d5`, a public file `f3` and a
private file `f4`. -/
def listing_store : Store :=
  ⟨[{ docId := "d3", name := "Root", owner_id := some 1, is_public := some true },
    { docId := "d4", name := "Pub", parent_id := some "d3", owner_id := some 1, is_public := some true },
    { docId := "d5", name := "Priv", parent_id := some "d3", owner_id := some 1 }],
   [{ docId := "f3", name := "PubF", parent_directory_id := "d3", external_file_id := "e3", owner_id := some 1, is_public := some true },
    { docId := "f4", name := "PrivF", parent_directory_id := "d3", external_file_id := "e4", owner_id := some 1 }]⟩

/-- Witness for C7: the anonymous caller lists the public directory `d3`
and receives exactly its public child directory and public file, the
private ones silently omitted. -/
theorem get_directory_content_spec_witness :
    GetDirectoryContent tok_stub none ⟨"d3"⟩ listing_store
      = .ok ⟨((listing_store.dirs_col.filter
            (fun d => d.parent_id == content_pid ⟨"d3"⟩)).filter
            (fun d => can_read d
              (get_user_identity tok_stub none).user_id)).map
            directory_response,
          ((listing_store.files_col.filter (fun f =>
            mongo_str_eq f.parent_directory_id (content_pid ⟨"d3"⟩))).filter
            (fun f => can_read f
              (get_user_identity tok_stub none).user_id)).map
            file_response⟩ ∧
    GetDirectoryContent tok_stub none ⟨"d3"⟩ listing_store
      = .ok ⟨[directory_response { docId := "d4", name := "Pub", parent_id := some "d3", owner_id := some 1, is_public := some true }],
          [file_response { docId := "f3", name := "PubF", parent_directory_id := "d3", external_file_id := "e3", owner_id := some 1, is_public := some true }]⟩ :=
  ⟨(get_directory_content_spec tok_stub none ⟨"d3"⟩ listing_store).2.2.1
    (Or.inr ⟨"d3",
      { docId := "d3", name := "Root", owner_id := some 1, is_public := some true },
      by decide, by decide, by decide⟩),
   by decide⟩

end Catalog
